import Mathlib

set_option maxHeartbeats 1000000

/-!
Shallow embedding of the step-wizard controllers of the two Streamlit variants in
this repository: `neurological_assessment.py` (the optimized 4-step variant) and
`neurological_assessment_old.py` (the older 9-step variant).  Session state is the
record written into `st.session_state`; each user action (a button click, a page
render with the current widget values) is a pure function from session state to
session state, following the source's handlers line by line.  The outbound HTTP
calls of `make_prediction` / `predict_by_user_id` are abstracted as a function
argument producing an `HttpResult`, mirroring `requests.post`: a 200 status with a
JSON body, a non-200 status, or a raised `RequestException`.
-/

/-- Association-list lookup, modelling Python dict access (`d.get(k)` / `k in d`).
First match wins; every dict built by the source has distinct keys. -/
def alistLookup {κ α : Type} [DecidableEq κ] (k : κ) : List (κ × α) → Option α
  | [] => none
  | (k', v) :: rest => if k' = k then some v else alistLookup k rest

/-- The fixed six-question bank `QUESTIONNAIRE`; the dictionary is identical in both
source variants (same keys, same texts). -/
def QUESTIONNAIRE : List (String × String) :=
  [("02", "Has your handwriting become smaller or more cramped?"),
   ("03", "Do people have trouble understanding your speech?"),
   ("09", "Do you have trouble with daily activities like bathing or dressing?"),
   ("13", "Do you have trouble with fine motor tasks?"),
   ("17", "Do you feel tired more often than usual?"),
   ("20", "Do you experience depression or anxiety?")]

/-- `question_keys = list(QUESTIONNAIRE.keys())`. -/
def questionnaireKeys : List String := QUESTIONNAIRE.map Prod.fst

/-- `required_questions` inside `make_prediction` of the optimized variant. -/
def required_questions : List String := ["02", "03", "09", "13", "17", "20"]

/-- The `st.session_state.user_data` dict written by `step_1_basic_info` of the
optimized variant. -/
structure UserData where
  age : Int
  age_at_diagnosis : Int
  gender : String
  appearance_in_kinship : String
  has_conditions : Bool
  conditions : List String
deriving DecidableEq

/-- A record returned by `fetch_user_data` (the `existing_user_data` slot):
demographics plus a dict of boolean questionnaire answers. -/
structure ExistingUserData where
  age : Int
  gender : String
  appearance_in_kinship : String
  age_at_diagnosis : Int
  responses : List (String × Bool)
deriving DecidableEq

/-- Session state of the optimized variant, exactly the keys created by its
`initialize_session_state`.  `user_data` starts as the empty dict `{}`, modelled
as `none`; it is `some _` once `step_1_basic_info` has written it. -/
structure Session where
  current_step : Nat
  user_data : Option UserData
  questionnaire_responses : List (String × Bool)
  consent_given : Bool
  user_id : String
  existing_user_data : Option ExistingUserData
  id_index : Option Nat
deriving DecidableEq

/-- The defaults set by `initialize_session_state` of the optimized variant. -/
def initSession : Session :=
  { current_step := 0, user_data := none, questionnaire_responses := [],
    consent_given := false, user_id := "", existing_user_data := none,
    id_index := none }

/-- `initialize_session_state`: each key absent from `st.session_state` is set to
its default.  The dict is modelled as all-or-nothing (`none` = no keys yet, as on
first run or right after the New-Assessment handler deleted every key), which are
the only two shapes the source ever produces. -/
def initialize_session_state : Option Session → Session
  | none => initSession
  | some s => s

/-- The widget values of `step_1_basic_info` (optimized variant) at the moment a
navigation button is clicked: the number inputs, select boxes, the conditions
radio/checkboxes and the consent checkbox. -/
structure BasicInfoInputs where
  age : Int
  gender : String
  appearance_in_kinship : String
  has_conditions : Bool
  age_at_diagnosis : Int
  conditions : List String
  consent : Bool
deriving DecidableEq

/-- The `user_data` dict as assembled by `step_1_basic_info`: `age_at_diagnosis`
and the conditions list are collected only when the has-conditions radio is
"Yes", otherwise they stay `0` / empty. -/
def mkUserData (inp : BasicInfoInputs) : UserData :=
  { age := inp.age,
    age_at_diagnosis := if inp.has_conditions then inp.age_at_diagnosis else 0,
    gender := inp.gender,
    appearance_in_kinship := inp.appearance_in_kinship,
    has_conditions := inp.has_conditions,
    conditions := if inp.has_conditions then inp.conditions else [] }

/-- The "Start Your Assessment" button of `step_0_welcome`. -/
def step_0_start (s : Session) : Session := { s with current_step := 1 }

/-- What every run of `step_1_basic_info` writes into the session before its
navigation buttons are handled: `user_data` and `consent_given`. -/
def step_1_render (inp : BasicInfoInputs) (s : Session) : Session :=
  { s with user_data := some (mkUserData inp), consent_given := inp.consent }

/-- The "Continue to Assessment" button of `step_1_basic_info`: the button is
disabled unless the consent checkbox is ticked, and its handler checks consent
again; without consent the step does not change and the error message is shown. -/
def step_1_continue (inp : BasicInfoInputs) (s : Session) : Session × Option String :=
  let s' := step_1_render inp s
  if inp.consent then ({ s' with current_step := 2 }, none)
  else (s', some "Please provide consent to continue")

/-- CSV lookup `get_user_answers_by_id`: the dataset rows are keyed by `id_index`
(the `Unnamed: 0` column); a row absent from the dataset gives `None` rather than
an exception.  A found row is the mapping of question identifiers to numeric
answers. -/
def get_user_answers_by_id (ds : List (Nat × List (String × Int)))
    (id_index : Nat) : Option (List (String × Int)) :=
  alistLookup id_index ds

/-- The three outcomes of the "Load Data" handler in `step_2_assessment`:
`st.success`, `st.error` and `st.info` respectively, each with its message. -/
inductive LoadOutcome where
  | loaded (msg : String)
  | notFound (msg : String)
  | fresh (msg : String)
deriving DecidableEq

/-- The "Load Data" button of `step_2_assessment`.  With a positive index the CSV
is consulted: a found (hence non-empty, Python-truthy) row records the index,
mirrors it into `user_id` and clears `existing_user_data`; a miss changes nothing
and reports not-found.  Index 0 clears the lookup fields and starts fresh. -/
def load_data (ds : List (Nat × List (String × Int))) (id_index : Nat)
    (s : Session) : Session × LoadOutcome :=
  if id_index > 0 then
    match get_user_answers_by_id ds id_index with
    | some answers =>
      if answers = [] then
        (s, .notFound ("❌ No data found for ID Index: " ++ toString id_index))
      else
        ({ s with id_index := some id_index, user_id := toString id_index,
                  existing_user_data := none },
         .loaded ("✅ data loaded for ID Index: " ++ toString id_index))
    | none => (s, .notFound ("❌ No data found for ID Index: " ++ toString id_index))
  else
    ({ s with id_index := none, user_id := "" }, .fresh "Starting fresh assessment")

/-- Python truthiness of the optional numeric `st.session_state.id_index`
(`None` and `0` are falsy). -/
def idxTruthy : Option Nat → Bool
  | none => false
  | some n => n != 0

/-- The `existing_responses` dict computed on each run of `step_2_assessment`:
taken from a fetched user record when present, otherwise re-read from the CSV by
the stored `id_index` with each numeric answer coerced through `bool(...)`;
empty when neither source is set or the CSV row has gone missing. -/
def existing_responses (s : Session) (ds : List (Nat × List (String × Int))) :
    List (String × Bool) :=
  match s.existing_user_data with
  | some eu => eu.responses
  | none =>
    if idxTruthy s.id_index then
      match get_user_answers_by_id ds (s.id_index.getD 0) with
      | some csv_answers =>
        questionnaireKeys.filterMap
          (fun k => (alistLookup k csv_answers).map (fun v => (k, v != 0)))
      | none => []
    else []

/-- The questionnaire render of `step_2_assessment`: every question key gets a
radio whose preselected index comes from the merged defaults
(`existing_responses.get(question_key, False)`); a radio that already carries a
user selection in widget state (`choices k = some b`) keeps that selection, an
untouched radio (`choices k = none`) shows the preselected default.  The
resulting answers (one boolean per key) are the `responses` dict. -/
def render_responses (existing : List (String × Bool))
    (choices : String → Option Bool) : List (String × Bool) :=
  questionnaireKeys.map
    (fun k => (k, (choices k).getD ((alistLookup k existing).getD false)))

/-- Every run of `step_2_assessment` ends by storing the rendered answers:
`st.session_state.questionnaire_responses = responses`. -/
def step_2_render (existing : List (String × Bool))
    (choices : String → Option Bool) (s : Session) : Session :=
  { s with questionnaire_responses := render_responses existing choices }

/-- The refusal message of the "Get My Results" handler (optimized variant),
formatted from `completed_questions` and `total_questions`. -/
def questionnaire_refusal_msg (completed total : Nat) : String :=
  "Please answer all " ++ toString total ++ " questions to continue. (" ++
    toString completed ++ "/" ++ toString total ++ " completed)"

/-- The "Get My Results" button of `step_2_assessment`: advance to the Results
step when the answers dict has one entry per question of the bank, otherwise
stay and report how many of the questions are completed. -/
def step_2_submit (responses : List (String × Bool)) (s : Session) :
    Session × Option String :=
  if responses.length = QUESTIONNAIRE.length then
    ({ s with current_step := 3 }, none)
  else
    (s, some (questionnaire_refusal_msg responses.length QUESTIONNAIRE.length))

/-- The "Back" button of `step_2_assessment`.  The script has already stored the
rendered answers by the time the click is handled, so the click is the render
followed by setting the step index back to 1; nothing is validated or cleared. -/
def step_2_back_click (existing : List (String × Bool))
    (choices : String → Option Bool) (s : Session) : Session :=
  { step_2_render existing choices s with current_step := 1 }

/-- Result of one `requests.post`/`requests.get` call: a 200 response with body,
a non-200 status (`API Error`), or a transport exception (`Connection Error`). -/
inductive HttpResult (α : Type) where
  | ok (body : α)
  | errStatus (code : Nat)
  | noResponse (msg : String)
deriving DecidableEq

/-- Shared response handling of the prediction callers: a 200 body is returned,
a non-200 status and a raised exception both produce `None` (after `st.error`). -/
def httpToOption {α : Type} : HttpResult α → Option α
  | .ok body => some body
  | .errStatus _ => none
  | .noResponse _ => none

/-- A decoded body of the prediction service as read by the optimized variant:
`prediction` is the discrete class code, absent when the field is missing;
`confidence` and `probabilities` are the optional extras it also extracts. -/
structure PredResp where
  prediction : Option Int
  confidence : Option Rat
  probabilities : Option (List Rat)
deriving DecidableEq

/-- The flat payload `make_prediction` posts to `/predict_by_qn`: the demographic
fields plus one 0/1 entry per required question. -/
structure QnPayload where
  age : Int
  age_at_diagnosis : Int
  appearance_in_kinship : String
  gender : String
  answers : List (String × Int)
deriving DecidableEq

/-- Payload assembly of `make_prediction` (optimized variant): each required
question contributes `1` when `questionnaire_responses.get(q, False)` holds and
`0` otherwise. -/
def make_prediction_payload (u : UserData) (r : List (String × Bool)) : QnPayload :=
  { age := u.age, age_at_diagnosis := u.age_at_diagnosis,
    appearance_in_kinship := u.appearance_in_kinship, gender := u.gender,
    answers := required_questions.map
      (fun q => (q, if (alistLookup q r).getD false then 1 else 0)) }

/-- `make_prediction`: build the questionnaire payload, post it, and translate
the transport outcome as `httpToOption` does. -/
def make_prediction (u : UserData) (r : List (String × Bool))
    (post : QnPayload → HttpResult PredResp) : Option PredResp :=
  httpToOption (post (make_prediction_payload u r))

/-- Python `int(...)` on the numeric strings the source stores in `user_id`
(always `str(id_index)` for a positive `id_index`). -/
def int_of_str (s : String) : Int := (s.toInt?).getD 0

/-- `predict_by_user_id`: posts `{"user_id": int(user_id)}` to the user-id
endpoint and translates the transport outcome as `httpToOption` does. -/
def predict_by_user_id (user_id : String)
    (post : Int → HttpResult PredResp) : Option PredResp :=
  httpToOption (post (int_of_str user_id))

/-- Python truthiness of the `user_id` string (empty is falsy). -/
def strTruthy (s : String) : Bool := s != ""

/-- The single outbound request the Results step issues, identified by endpoint
and payload. -/
inductive PredictionRequest where
  | byUserId (user_id : Int)
  | byQn (payload : QnPayload)
deriving DecidableEq

/-- Which request `step_3_results` issues: when `user_id` is set (truthy) the
user-id endpoint is called with the parsed id alone, otherwise the questionnaire
payload is posted. -/
def results_request (s : Session) : PredictionRequest :=
  if strTruthy s.user_id then
    .byUserId (int_of_str s.user_id)
  else
    .byQn (make_prediction_payload (s.user_data.getD
      { age := 0, age_at_diagnosis := 0, gender := "",
        appearance_in_kinship := "", has_conditions := false, conditions := [] })
      s.questionnaire_responses)

/-- What the Results step of the optimized variant renders: the "Unable to
generate results" error (no usable response), the "Invalid response from
prediction service" error (200 body without a `prediction` field), or the
classification card for a label. -/
inductive ResultsView where
  | serviceError
  | invalidResponse
  | classified (label : String)
deriving DecidableEq

/-- The response handling of `step_3_results`: `None` renders the service error;
a body whose `prediction` is missing renders the invalid-response error; a class
code maps 0 to Healthy, 1 to Parkinson, anything else to Other Motor Disease. -/
def step_3_view (pr : Option PredResp) : ResultsView :=
  match pr with
  | none => .serviceError
  | some r =>
    match r.prediction with
    | none => .invalidResponse
    | some c =>
      .classified (if c = 0 then "Healthy"
        else if c = 1 then "Parkinson\x27s Disease" else "Other Motor Disease")

/-- One run of `step_3_results` up to its action buttons: choose the endpoint by
`user_id` truthiness, call it, render the outcome.  The session itself is not
mutated by the render (only the New-Assessment and Back buttons mutate it). -/
def step_3_run (s : Session) (qnPost : QnPayload → HttpResult PredResp)
    (userPost : Int → HttpResult PredResp) : Session × ResultsView :=
  let pr :=
    if strTruthy s.user_id then predict_by_user_id s.user_id userPost
    else make_prediction (s.user_data.getD
      { age := 0, age_at_diagnosis := 0, gender := "",
        appearance_in_kinship := "", has_conditions := false, conditions := [] })
      s.questionnaire_responses qnPost
  (s, step_3_view pr)

/-- The "New Assessment" button of `step_3_results`: every key of
`st.session_state` is deleted and the script reruns, so the next run sees an
empty state and `initialize_session_state` recreates every default. -/
def new_assessment_reset (_ : Session) : Session :=
  initialize_session_state none

/-- The `user_data` dict of the older variant's `step_1_basic_info` (its
`age_at_diagnosis` is its own number input, unconditionally collected). -/
structure OldUserData where
  age : Int
  age_at_diagnosis : Int
  gender : String
  appearance_in_kinship : String
deriving DecidableEq

/-- The `health_history` dict of the older variant's `step_2_health_history`. -/
structure HealthHistory where
  has_conditions : Bool
  conditions : List String
deriving DecidableEq

/-- Session state of the older variant, the keys of its
`initialize_session_state`. -/
structure OldSession where
  current_step : Nat
  user_data : Option OldUserData
  health_history : Option HealthHistory
  motion_data_uploaded : Bool
  questionnaire_responses : List (String × Bool)
  consent_given : Bool
deriving DecidableEq

/-- The defaults set by the older variant's `initialize_session_state`. -/
def oldInitSession : OldSession :=
  { current_step := 0, user_data := none, health_history := none,
    motion_data_uploaded := false, questionnaire_responses := [],
    consent_given := false }

/-- The widget values of the older variant's `step_1_basic_info`. -/
structure OldBasicInfoInputs where
  age : Int
  age_at_diagnosis : Int
  gender : String
  appearance_in_kinship : String
  consent : Bool
deriving DecidableEq

/-- What every run of the older `step_1_basic_info` writes before its buttons. -/
def old_step_1_render (inp : OldBasicInfoInputs) (s : OldSession) : OldSession :=
  { s with
    user_data := some { age := inp.age, age_at_diagnosis := inp.age_at_diagnosis,
                        gender := inp.gender,
                        appearance_in_kinship := inp.appearance_in_kinship },
    consent_given := inp.consent }

/-- The older variant's "Continue" button on BasicInfo: disabled without consent,
and its handler advances only when consent is ticked. -/
def old_step_1_continue (inp : OldBasicInfoInputs) (s : OldSession) :
    OldSession × Option String :=
  let s' := old_step_1_render inp s
  if inp.consent then ({ s' with current_step := 2 }, none)
  else (s', some "Please provide consent to continue")

/-- The questionnaire render of the older `step_6_questionnaire`: each question's
radio has no stored-default merge; an untouched radio shows its first option
"No", so each key's answer is the user's selection or `false`. -/
def old_render_responses (choices : String → Option Bool) : List (String × Bool) :=
  questionnaireKeys.map (fun k => (k, (choices k).getD false))

/-- The older "Get My Results" button: advance to step 7 when the answers dict
has one entry per bank question, otherwise stay and show the fixed message. -/
def old_step_6_submit (responses : List (String × Bool)) (s : OldSession) :
    OldSession × Option String :=
  if responses.length = QUESTIONNAIRE.length then
    ({ s with current_step := 7 }, none)
  else
    (s, some "Please answer all questions to continue.")

/-- The older "Back" button on the questionnaire step: it only sets the step
index back to 5, touching no collected data. -/
def old_back_6 (s : OldSession) : OldSession := { s with current_step := 5 }

/-- A decoded body of the prediction service as read by the older variant: only
the `prediction` field is consulted, a continuous risk score. -/
structure OldResp where
  prediction : Option Rat
deriving DecidableEq

/-- Response handling of the older variant's `make_prediction`: a 200 body is
returned, a non-200 status and a raised exception both give `None` (after
`st.error`).  The posted payload (demographics plus the six answers read
directly from `questionnaire_responses`) is not consulted by any property here
and is left abstract. -/
def old_make_prediction (post : HttpResult OldResp) : Option OldResp :=
  httpToOption post

/-- What the older `step_7_results` renders: the "Unable to generate results"
error, the higher-risk warning box, or the lower-risk success box. -/
inductive OldResultsView where
  | serviceError
  | higherRisk
  | lowerRisk
deriving DecidableEq

/-- The older variant's result rendering: `None` gives the error; otherwise
`prediction = prediction_result.get("prediction", 0)` and the warning box is
shown exactly when `prediction > 0.5`. -/
def old_step_7_view (pr : Option OldResp) : OldResultsView :=
  match pr with
  | none => .serviceError
  | some r => if r.prediction.getD 0 > (0.5 : Rat) then .higherRisk else .lowerRisk

/-- One run of the older `step_7_results`: the render mutates nothing. -/
def old_step_7_run (s : OldSession) (post : HttpResult OldResp) :
    OldSession × OldResultsView :=
  (s, old_step_7_view (old_make_prediction post))

/-- The older "Take New Assessment" button of `step_8_closing`: every session key
is deleted and the rerun reinitializes every default. -/
def old_new_assessment_reset (_ : OldSession) : OldSession := oldInitSession

/-- Whether `needle` occurs at the front of `hay`. -/
def charsMatchAt (needle : List Char) : List Char → Bool :=
  fun hay =>
    match needle, hay with
    | [], _ => true
    | _ :: _, [] => false
    | n :: ns, h :: hs => n == h && charsMatchAt ns hs

/-- Whether `needle` occurs contiguously anywhere in `hay`. -/
def hasSubstr (needle : List Char) : List Char → Bool
  | [] => charsMatchAt needle []
  | h :: hs => charsMatchAt needle (h :: hs) || hasSubstr needle hs

/-- The BasicInfo entries of the specified end-to-end scenario: age 65, male, no
family history, no diagnosed conditions, consent given. -/
def scenario_basic_info : BasicInfoInputs :=
  { age := 65, gender := "Male", appearance_in_kinship := "No",
    has_conditions := false, age_at_diagnosis := 0, conditions := [],
    consent := true }

/-- A prediction service answering every questionnaire post with
`{"prediction": 0}`. -/
def scenario_post : QnPayload → HttpResult PredResp :=
  fun _ => .ok { prediction := some 0, confidence := none, probabilities := none }

/-- The user-id endpoint is never reached in the scenario (no lookup was made). -/
def scenario_user_post : Int → HttpResult PredResp :=
  fun _ => .noResponse "not reached"

/-- The session after the end-to-end scenario's navigation: start, fill BasicInfo
and continue, answer every question "No", submit. -/
def scenario_final_session : Session :=
  let s1 := step_0_start (initialize_session_state none)
  let s2 := (step_1_continue scenario_basic_info s1).1
  let s3 := step_2_render [] (fun _ => some false) s2
  (step_2_submit s3.questionnaire_responses s3).1

/-- The Results rendering of the end-to-end scenario. -/
def scenario_view : ResultsView :=
  (step_3_run scenario_final_session scenario_post scenario_user_post).2

/-- A key that is on no row of an association list is not found. -/
theorem alistLookup_eq_none {κ α : Type} [DecidableEq κ] (k : κ)
    (l : List (κ × α)) (h : ∀ p ∈ l, p.1 ≠ k) : alistLookup k l = none := by
  induction l with
  | nil => rfl
  | cons hd tl ih =>
    obtain ⟨k1, v1⟩ := hd
    have h1 : k1 ≠ k := h (k1, v1) (List.mem_cons_self _ _)
    have h2 : ∀ p ∈ tl, p.1 ≠ k := fun p hp => h p (List.mem_cons_of_mem _ hp)
    simp [alistLookup, h1]
    exact ih h2

/-- Looking a bank key up in the rendered answers gives the radio's value: the
user's stored selection when present, otherwise the merged default. -/
theorem lookup_render_responses (existing : List (String × Bool))
    (choices : String → Option Bool) (k : String) (hk : k ∈ questionnaireKeys) :
    alistLookup k (render_responses existing choices)
      = some ((choices k).getD ((alistLookup k existing).getD false)) := by
  have hcases : k = "02" ∨ k = "03" ∨ k = "09" ∨ k = "13" ∨ k = "17" ∨ k = "20" := by
    simpa [questionnaireKeys, QUESTIONNAIRE] using hk
  rcases hcases with rfl | rfl | rfl | rfl | rfl | rfl <;> rfl

/-- C1 (amended): in both variants the Questionnaire exit succeeds exactly when
the answers dict has as many entries as the six-question bank, a refused submit
leaves the session unchanged (still on the Questionnaire step), and the rendered
answers carry exactly one entry per bank identifier; the optimized variant's
refusal message reports the completed count (the "5/6 completed" format), while
the older variant's refusal message is a fixed sentence. -/
theorem C1_questionnaire_gate :
    (∀ (r : List (String × Bool)) (s : Session),
        (step_2_submit r s).2 = none ↔ r.length = QUESTIONNAIRE.length) ∧
    (∀ (r : List (String × Bool)) (s : Session), r.length = QUESTIONNAIRE.length →
        step_2_submit r s = ({ s with current_step := 3 }, none)) ∧
    (∀ (r : List (String × Bool)) (s : Session), r.length ≠ QUESTIONNAIRE.length →
        step_2_submit r s
          = (s, some (questionnaire_refusal_msg r.length QUESTIONNAIRE.length))) ∧
    (∀ (existing : List (String × Bool)) (choices : String → Option Bool),
        (render_responses existing choices).map Prod.fst = questionnaireKeys) ∧
    (∀ c : Nat, c ≤ QUESTIONNAIRE.length →
        hasSubstr (toString c ++ "/6 completed").toList
          (questionnaire_refusal_msg c QUESTIONNAIRE.length).toList = true) ∧
    (∀ (r : List (String × Bool)) (s : OldSession),
        (old_step_6_submit r s).2 = none ↔ r.length = QUESTIONNAIRE.length) ∧
    (∀ (r : List (String × Bool)) (s : OldSession), r.length ≠ QUESTIONNAIRE.length →
        old_step_6_submit r s
          = (s, some "Please answer all questions to continue.")) := by
  refine ⟨?_, ?_, ?_, ?_, ?_, ?_, ?_⟩
  · intro r s
    by_cases h : r.length = QUESTIONNAIRE.length <;> simp [step_2_submit, h]
  · intro r s h
    simp [step_2_submit, h]
  · intro r s h
    simp [step_2_submit, h]
  · intro existing choices
    rfl
  · intro c hc
    have h6 : QUESTIONNAIRE.length = 6 := rfl
    rw [h6] at hc ⊢
    interval_cases c <;> decide
  · intro r s
    by_cases h : r.length = QUESTIONNAIRE.length <;> simp [old_step_6_submit, h]
  · intro r s h
    simp [old_step_6_submit, h]

/-- Witness for C1: a full six-answer dict advances the optimized variant to the
Results step; four answers are refused by the older variant with its fixed
message; the optimized refusal message for five answers contains "5/6
completed". -/
theorem C1_questionnaire_gate_witness :
    step_2_submit
        [("02", false), ("03", false), ("09", true), ("13", false), ("17", false),
         ("20", true)] initSession
      = ({ initSession with current_step := 3 }, none) ∧
    old_step_6_submit [("02", false), ("03", false), ("09", false), ("13", false)]
        oldInitSession
      = (oldInitSession, some "Please answer all questions to continue.") ∧
    hasSubstr (toString 5 ++ "/6 completed").toList
        (questionnaire_refusal_msg 5 QUESTIONNAIRE.length).toList = true :=
  ⟨C1_questionnaire_gate.2.1
      [("02", false), ("03", false), ("09", true), ("13", false), ("17", false),
       ("20", true)] initSession (by decide),
   C1_questionnaire_gate.2.2.2.2.2.2
      [("02", false), ("03", false), ("09", false), ("13", false)] oldInitSession
      (by decide),
   C1_questionnaire_gate.2.2.2.2.1 5 (by decide)⟩

/-- C1 counterexample: in the older variant, submitting 5 of the 6 answers is
refused with the fixed message "Please answer all questions to continue.", which
does not contain "5/6 completed" — it contains no digit at all — so the refusal
message does not report the count of completed answers. -/
theorem C1_old_refusal_no_count :
    (old_step_6_submit
        [("02", false), ("03", false), ("09", false), ("13", false), ("17", false)]
        { oldInitSession with current_step := 6 }).2
      = some "Please answer all questions to continue." ∧
    ([("02", false), ("03", false), ("09", false), ("13", false), ("17", false)] :
        List (String × Bool)).length = 5 ∧
    QUESTIONNAIRE.length = 6 ∧
    hasSubstr ("5/6 completed").toList
      "Please answer all questions to continue.".toList = false ∧
    "Please answer all questions to continue.".toList.all
      (fun c => !c.isDigit) = true := by
  refine ⟨rfl, rfl, rfl, ?_, ?_⟩ <;> decide

/-- C2: in the optimized variant the displayed label is determined by the
discrete class code of the response — 0 renders Healthy, 1 renders Parkinson,
2 renders Other Motor Disease; in the older variant the higher-risk box is shown
exactly when the continuous score exceeds 0.5; and the end-to-end scenario
(BasicInfo age 65/Male/no family history/consent, all questions answered No,
service answers prediction 0) reaches the Results step and displays Healthy. -/
theorem C2_result_label_mapping :
    (∀ (conf : Option Rat) (probs : Option (List Rat)),
        step_3_view (some { prediction := some 0, confidence := conf,
                            probabilities := probs })
          = .classified "Healthy") ∧
    (∀ (conf : Option Rat) (probs : Option (List Rat)),
        step_3_view (some { prediction := some 1, confidence := conf,
                            probabilities := probs })
          = .classified "Parkinson\x27s Disease") ∧
    (∀ (conf : Option Rat) (probs : Option (List Rat)),
        step_3_view (some { prediction := some 2, confidence := conf,
                            probabilities := probs })
          = .classified "Other Motor Disease") ∧
    (∀ p : Rat,
        old_step_7_view (some { prediction := some p }) = .higherRisk ↔ p > 0.5) ∧
    scenario_final_session.current_step = 3 ∧
    scenario_view = .classified "Healthy" := by
  refine ⟨fun conf probs => rfl, fun conf probs => rfl, fun conf probs => rfl,
          ?_, rfl, rfl⟩
  intro p
  by_cases h : p > (0.5 : Rat) <;> simp [old_step_7_view, h]

/-- C3: in both variants, without consent every attempt to leave BasicInfo is
refused (the step index is unchanged and the consent error is shown) no matter
what the other widget values are; with consent the Continue click advances the
session to the next step (step 2) with no error. -/
theorem C3_consent_gating :
    (∀ (inp : BasicInfoInputs) (s : Session), inp.consent = false →
        (step_1_continue inp s).1.current_step = s.current_step ∧
        (step_1_continue inp s).2 = some "Please provide consent to continue") ∧
    (∀ (inp : BasicInfoInputs) (s : Session), inp.consent = true →
        (step_1_continue inp s).1.current_step = 2 ∧
        (step_1_continue inp s).2 = none) ∧
    (∀ (inp : OldBasicInfoInputs) (s : OldSession), inp.consent = false →
        (old_step_1_continue inp s).1.current_step = s.current_step ∧
        (old_step_1_continue inp s).2 = some "Please provide consent to continue") ∧
    (∀ (inp : OldBasicInfoInputs) (s : OldSession), inp.consent = true →
        (old_step_1_continue inp s).1.current_step = 2 ∧
        (old_step_1_continue inp s).2 = none) := by
  refine ⟨?_, ?_, ?_, ?_⟩ <;>
    · intro inp s h
      constructor <;>
        simp [step_1_continue, step_1_render, old_step_1_continue,
              old_step_1_render, h]

/-- Witness for C3: with every other field filled but consent unticked the
optimized variant stays on BasicInfo and shows the consent error; ticking
consent advances to step 2. -/
theorem C3_consent_gating_witness :
    ((step_1_continue
        { age := 70, gender := "Female", appearance_in_kinship := "Yes",
          has_conditions := true, age_at_diagnosis := 55,
          conditions := ["Arthritis"], consent := false }
        initSession).1.current_step = initSession.current_step ∧
     (step_1_continue
        { age := 70, gender := "Female", appearance_in_kinship := "Yes",
          has_conditions := true, age_at_diagnosis := 55,
          conditions := ["Arthritis"], consent := false }
        initSession).2 = some "Please provide consent to continue") ∧
    ((step_1_continue
        { age := 70, gender := "Female", appearance_in_kinship := "Yes",
          has_conditions := true, age_at_diagnosis := 55,
          conditions := ["Arthritis"], consent := true }
        initSession).1.current_step = 2 ∧
     (step_1_continue
        { age := 70, gender := "Female", appearance_in_kinship := "Yes",
          has_conditions := true, age_at_diagnosis := 55,
          conditions := ["Arthritis"], consent := true }
        initSession).2 = none) :=
  ⟨C3_consent_gating.1
      { age := 70, gender := "Female", appearance_in_kinship := "Yes",
        has_conditions := true, age_at_diagnosis := 55,
        conditions := ["Arthritis"], consent := false } initSession rfl,
   C3_consent_gating.2.1
      { age := 70, gender := "Female", appearance_in_kinship := "Yes",
        has_conditions := true, age_at_diagnosis := 55,
        conditions := ["Arthritis"], consent := true } initSession rfl⟩

/-- C4: merged lookup answers act as defaults only.  For any bank question, when
the user has not touched its radio the stored answer equals the merged default
(the looked-up value, or No without one); as soon as the user has explicitly
selected an answer, the stored answer is the user's choice whatever the merged
default says — re-rendering never re-asserts the merged value over the edit. -/
theorem C4_lookup_merge_override :
    ∀ (existing : List (String × Bool)) (choices : String → Option Bool)
      (k : String), k ∈ questionnaireKeys →
      (choices k = none →
        alistLookup k (render_responses existing choices)
          = some ((alistLookup k existing).getD false)) ∧
      (∀ b : Bool, choices k = some b →
        alistLookup k (render_responses existing choices) = some b) := by
  intro existing choices k hk
  constructor
  · intro h
    rw [lookup_render_responses existing choices k hk, h]
    rfl
  · intro b h
    rw [lookup_render_responses existing choices k hk, h]
    rfl

/-- Witness for C4: loading CSV row 3 with answer 1 for question "02" merges the
default true; with no edit the stored answer for "02" is true, and after the
user explicitly selects No it is false. -/
theorem C4_lookup_merge_override_witness :
    alistLookup "02"
        (existing_responses (load_data [(3, [("02", 1)])] 3 initSession).1
          [(3, [("02", 1)])]) = some true ∧
    alistLookup "02" (render_responses [("02", true)] (fun _ => none)) = some true ∧
    alistLookup "02"
        (render_responses [("02", true)]
          (fun k => if k = "02" then some false else none)) = some false :=
  ⟨by decide,
   (C4_lookup_merge_override [("02", true)] (fun _ => none) "02" (by decide)).1 rfl,
   (C4_lookup_merge_override [("02", true)]
      (fun k => if k = "02" then some false else none) "02" (by decide)).2
     false (by decide)⟩

/-- C5: a lookup by a key on no row of the dataset resolves to a not-found
condition — `get_user_answers_by_id` returns None rather than raising — and the
Load-Data handler then leaves the session exactly as it was: no field is
mutated, in particular `questionnaire_responses` is unchanged. -/
theorem C5_lookup_miss_no_mutation :
    ∀ (ds : List (Nat × List (String × Int))) (idx : Nat) (s : Session),
      0 < idx →
      (∀ p ∈ ds, p.1 ≠ idx) →
      get_user_answers_by_id ds idx = none ∧
      load_data ds idx s
        = (s, .notFound ("❌ No data found for ID Index: " ++ toString idx)) ∧
      (load_data ds idx s).1.questionnaire_responses
        = s.questionnaire_responses := by
  intro ds idx s hpos hmiss
  have hnone : get_user_answers_by_id ds idx = none :=
    alistLookup_eq_none idx ds hmiss
  have hload : load_data ds idx s
      = (s, .notFound ("❌ No data found for ID Index: " ++ toString idx)) := by
    simp [load_data, hpos, hnone]
  exact ⟨hnone, hload, by rw [hload]⟩

/-- Witness for C5: index 2 is on no row of a one-row dataset; the lookup reports
not-found and a session with an answered question keeps it untouched. -/
theorem C5_lookup_miss_no_mutation_witness :
    get_user_answers_by_id [(1, [("02", 1), ("03", 0)])] 2 = none ∧
    load_data [(1, [("02", 1), ("03", 0)])] 2
        { initSession with questionnaire_responses := [("02", true)] }
      = ({ initSession with questionnaire_responses := [("02", true)] },
         .notFound ("❌ No data found for ID Index: " ++ toString 2)) :=
  ⟨(C5_lookup_miss_no_mutation [(1, [("02", 1), ("03", 0)])] 2
      { initSession with questionnaire_responses := [("02", true)] }
      (by decide) (by decide)).1,
   (C5_lookup_miss_no_mutation [(1, [("02", 1), ("03", 0)])] 2
      { initSession with questionnaire_responses := [("02", true)] }
      (by decide) (by decide)).2.1⟩

/-- C6: when `user_id` is set (non-empty, as after a successful lookup), the
Results step issues the user-id request built from the lookup key alone; two
sessions with the same non-empty `user_id` but arbitrarily different
questionnaire answers and basic-info data issue the identical outbound request
and display the identical result. -/
theorem C6_userid_determines_request :
    ∀ (s1 s2 : Session) (qnPost : QnPayload → HttpResult PredResp)
      (userPost : Int → HttpResult PredResp),
      s1.user_id = s2.user_id →
      strTruthy s1.user_id = true →
      results_request s1 = .byUserId (int_of_str s1.user_id) ∧
      results_request s1 = results_request s2 ∧
      (step_3_run s1 qnPost userPost).2 = (step_3_run s2 qnPost userPost).2 := by
  intro s1 s2 qnPost userPost heq htr
  have htr2 : strTruthy s2.user_id = true := heq ▸ htr
  refine ⟨?_, ?_, ?_⟩
  · simp [results_request, htr]
  · simp [results_request, htr, htr2, heq]
  · simp [step_3_run, htr, htr2, heq]

/-- Witness for C6: user id "7" with a fully answered questionnaire and a blank
one issue the same by-user-id request and render the same result even though
their questionnaire answers differ. -/
theorem C6_userid_determines_request_witness :
    results_request
        { initSession with
          user_id := "7",
          questionnaire_responses :=
            [("02", true), ("03", true), ("09", true), ("13", true),
             ("17", true), ("20", true)] }
      = .byUserId (int_of_str "7") ∧
    (step_3_run
        { initSession with
          user_id := "7",
          questionnaire_responses :=
            [("02", true), ("03", true), ("09", true), ("13", true),
             ("17", true), ("20", true)] }
        (fun _ => .noResponse "unreachable")
        (fun _ => .ok { prediction := some 1, confidence := none,
                        probabilities := none })).2
      = (step_3_run { initSession with user_id := "7" }
          (fun _ => .noResponse "unreachable")
          (fun _ => .ok { prediction := some 1, confidence := none,
                          probabilities := none })).2 :=
  ⟨(C6_userid_determines_request
      { initSession with
        user_id := "7",
        questionnaire_responses :=
          [("02", true), ("03", true), ("09", true), ("13", true),
           ("17", true), ("20", true)] }
      { initSession with user_id := "7" }
      (fun _ => .noResponse "unreachable")
      (fun _ => .ok { prediction := some 1, confidence := none,
                      probabilities := none }) rfl rfl).1,
   (C6_userid_determines_request
      { initSession with
        user_id := "7",
        questionnaire_responses :=
          [("02", true), ("03", true), ("09", true), ("13", true),
           ("17", true), ("20", true)] }
      { initSession with user_id := "7" }
      (fun _ => .noResponse "unreachable")
      (fun _ => .ok { prediction := some 1, confidence := none,
                      probabilities := none }) rfl rfl).2.2⟩

/-- C7: the Back click on the questionnaire step is always allowed and performs
no validation — it sets the step index back by one and touches no collected
value (the older variant's Back likewise only rewrites the step index); and a
Back followed immediately by a Forward with unchanged widget values restores
`questionnaire_responses` and the basic-info data to exactly their prior
values. -/
theorem C7_back_preserves_data :
    ∀ (existing : List (String × Bool)) (choices : String → Option Bool)
      (inp : BasicInfoInputs) (s : Session) (os : OldSession),
      (step_2_back_click existing choices s).current_step = 1 ∧
      (step_2_back_click existing choices s).user_data = s.user_data ∧
      (step_2_back_click existing choices s).consent_given = s.consent_given ∧
      old_back_6 os = { os with current_step := 5 } ∧
      (s.user_data = some (mkUserData inp) →
        inp.consent = true →
        s.questionnaire_responses = render_responses existing choices →
        s.current_step = 2 →
        ((step_2_back_click existing choices s).questionnaire_responses
            = s.questionnaire_responses ∧
         (step_2_render existing choices
            ((step_1_continue inp
              (step_2_back_click existing choices s)).1)).questionnaire_responses
            = s.questionnaire_responses ∧
         (step_2_render existing choices
            ((step_1_continue inp
              (step_2_back_click existing choices s)).1)).user_data
            = s.user_data ∧
         (step_2_render existing choices
            ((step_1_continue inp
              (step_2_back_click existing choices s)).1)).current_step = 2)) := by
  intro existing choices inp s os
  refine ⟨rfl, rfl, rfl, rfl, ?_⟩
  intro hud hc hqr hstep
  refine ⟨hqr.symm, hqr.symm, ?_, ?_⟩
  · simp [step_2_render, step_1_continue, step_1_render, step_2_back_click, hc,
          hud]
  · simp [step_2_render, step_1_continue, step_1_render, step_2_back_click, hc]

/-- Witness for C7: from a consistent step-2 session (consent given, BasicInfo
stored, questionnaire rendered with no lookup defaults and untouched radios),
Back goes to step 1 preserving everything, and the immediate Forward restores
the identical questionnaire answers and basic info on step 2. -/
theorem C7_back_preserves_data_witness :
    (step_2_back_click [] (fun _ => none)
        { current_step := 2,
          user_data := some (mkUserData
            { age := 65, gender := "Male", appearance_in_kinship := "No",
              has_conditions := false, age_at_diagnosis := 0, conditions := [],
              consent := true }),
          questionnaire_responses := render_responses [] (fun _ => none),
          consent_given := true, user_id := "", existing_user_data := none,
          id_index := none }).current_step = 1 ∧
    (step_2_render [] (fun _ => none)
        ((step_1_continue
            { age := 65, gender := "Male", appearance_in_kinship := "No",
              has_conditions := false, age_at_diagnosis := 0, conditions := [],
              consent := true }
            (step_2_back_click [] (fun _ => none)
              { current_step := 2,
                user_data := some (mkUserData
                  { age := 65, gender := "Male", appearance_in_kinship := "No",
                    has_conditions := false, age_at_diagnosis := 0,
                    conditions := [], consent := true }),
                questionnaire_responses := render_responses [] (fun _ => none),
                consent_given := true, user_id := "", existing_user_data := none,
                id_index := none })).1)).questionnaire_responses
      = render_responses [] (fun _ => none) ∧
    (step_2_render [] (fun _ => none)
        ((step_1_continue
            { age := 65, gender := "Male", appearance_in_kinship := "No",
              has_conditions := false, age_at_diagnosis := 0, conditions := [],
              consent := true }
            (step_2_back_click [] (fun _ => none)
              { current_step := 2,
                user_data := some (mkUserData
                  { age := 65, gender := "Male", appearance_in_kinship := "No",
                    has_conditions := false, age_at_diagnosis := 0,
                    conditions := [], consent := true }),
                questionnaire_responses := render_responses [] (fun _ => none),
                consent_given := true, user_id := "", existing_user_data := none,
                id_index := none })).1)).current_step = 2 := by
  have h := C7_back_preserves_data [] (fun _ => none)
    { age := 65, gender := "Male", appearance_in_kinship := "No",
      has_conditions := false, age_at_diagnosis := 0, conditions := [],
      consent := true }
    { current_step := 2,
      user_data := some (mkUserData
        { age := 65, gender := "Male", appearance_in_kinship := "No",
          has_conditions := false, age_at_diagnosis := 0, conditions := [],
          consent := true }),
      questionnaire_responses := render_responses [] (fun _ => none),
      consent_given := true, user_id := "", existing_user_data := none,
      id_index := none }
    oldInitSession
  exact ⟨h.1, (h.2.2.2.2 rfl rfl rfl rfl).2.1, (h.2.2.2.2 rfl rfl rfl rfl).2.2.2⟩

/-- C8: the New-Assessment action from the terminal step discards the whole
session in both variants: every field returns to its initialization default,
the step index returns to 0 (Welcome), and a lookup performed after the reset
behaves exactly as a lookup on a brand-new session, whatever the prior session
held. -/
theorem C8_reset_to_defaults :
    ∀ (s : Session) (os : OldSession) (ds : List (Nat × List (String × Int)))
      (idx : Nat),
      new_assessment_reset s = initSession ∧
      (new_assessment_reset s).current_step = 0 ∧
      (new_assessment_reset s).user_data = none ∧
      (new_assessment_reset s).questionnaire_responses = [] ∧
      (new_assessment_reset s).consent_given = false ∧
      (new_assessment_reset s).user_id = "" ∧
      (new_assessment_reset s).existing_user_data = none ∧
      (new_assessment_reset s).id_index = none ∧
      load_data ds idx (new_assessment_reset s) = load_data ds idx initSession ∧
      old_new_assessment_reset os = oldInitSession ∧
      (old_new_assessment_reset os).current_step = 0 := by
  intro s os ds idx
  exact ⟨rfl, rfl, rfl, rfl, rfl, rfl, rfl, rfl, rfl, rfl, rfl⟩

/-- C9 (amended): every prediction failure is recovered locally and never
mutates the session.  In the optimized variant an unreachable service and a
non-success status are treated identically (both yield None and the
unable-to-generate error), and a success response missing the prediction field
yields the invalid-response error; the Results render leaves the session
untouched in every case.  In the older variant unreachable and non-success are
likewise recovered with the error rendering and an unchanged session, but a
success response missing the prediction field is read as prediction 0 and
renders the lower-risk result instead of an error. -/
theorem C9_failure_recovery :
    ∀ (code : Nat) (msg : String) (s : Session) (os : OldSession)
      (qnPost : QnPayload → HttpResult PredResp)
      (userPost : Int → HttpResult PredResp)
      (u : UserData) (r : List (String × Bool))
      (conf : Option Rat) (probs : Option (List Rat)),
      make_prediction u r (fun _ => .errStatus code) = none ∧
      make_prediction u r (fun _ => .noResponse msg) = none ∧
      predict_by_user_id s.user_id (fun _ => .errStatus code) = none ∧
      predict_by_user_id s.user_id (fun _ => .noResponse msg) = none ∧
      step_3_view none = .serviceError ∧
      step_3_view (some { prediction := none, confidence := conf,
                          probabilities := probs }) = .invalidResponse ∧
      (step_3_run s qnPost userPost).1 = s ∧
      old_make_prediction (.errStatus code) = none ∧
      old_make_prediction (.noResponse msg) = none ∧
      old_step_7_view none = .serviceError ∧
      (old_step_7_run os (.errStatus code)).1 = os ∧
      (old_step_7_run os (.noResponse msg)).1 = os ∧
      old_step_7_view (old_make_prediction (.ok { prediction := none }))
        = .lowerRisk := by
  intro code msg s os qnPost userPost u r conf probs
  refine ⟨rfl, rfl, rfl, rfl, rfl, rfl, rfl, rfl, rfl, rfl, rfl, rfl, ?_⟩
  norm_num [old_step_7_view, old_make_prediction, httpToOption]

/-- C9 counterexample: in the older variant a 200 response whose body lacks the
prediction field is not recovered as an error — `get("prediction", 0)` turns it
into the score 0 and the lower-risk success box is rendered. -/
theorem C9_missing_field_counterexample :
    old_step_7_view (old_make_prediction (.ok { prediction := none }))
      = .lowerRisk ∧
    OldResultsView.lowerRisk ≠ OldResultsView.serviceError ∧
    OldResultsView.lowerRisk ≠ OldResultsView.higherRisk := by
  refine ⟨?_, by decide, by decide⟩
  norm_num [old_step_7_view, old_make_prediction, httpToOption]

/-- C10: after the questionnaire step renders, the stored answers contain one
boolean entry for every identifier of the bank — each radio always carries a
selection, defaulting to No when no lookup default exists — so in both variants
the incomplete-questionnaire refusal branch of the submit handler can never
fire on rendered answers: the submit always advances. -/
theorem C10_questionnaire_always_complete :
    ∀ (existing : List (String × Bool)) (choices : String → Option Bool)
      (oldChoices : String → Option Bool) (s : Session) (os : OldSession),
      (render_responses existing choices).map Prod.fst = questionnaireKeys ∧
      (render_responses existing choices).length = QUESTIONNAIRE.length ∧
      step_2_submit (render_responses existing choices) s
        = ({ s with current_step := 3 }, none) ∧
      render_responses [] (fun _ => none)
        = questionnaireKeys.map (fun k => (k, false)) ∧
      (old_render_responses oldChoices).map Prod.fst = questionnaireKeys ∧
      (old_render_responses oldChoices).length = QUESTIONNAIRE.length ∧
      old_step_6_submit (old_render_responses oldChoices) os
        = ({ os with current_step := 7 }, none) := by
  intro existing choices oldChoices s os
  exact ⟨rfl, rfl, rfl, rfl, rfl, rfl, rfl⟩
